import Mathlib

/-!
Verification development for the dataset discovery / format-dispatch core of
fgread (src/fgread/read.py): a shallow embedding of `ds_info`, `load_data`,
`select_ds_id` and `get_ds_paths` together with the pandas operations they use,
followed by theorems settling the specification's claims.

Modelling conventions:
* Python dicts and JSON sidecar objects become association lists
  (`List (String × α)`) with first-match lookup; Python dict insertion keeps
  the key's position, so `aset` replaces in place and appends new keys.
* JSON scalar values are modelled as strings (`Record := List (String × String)`);
  a pandas cell is `Option String`, with `none` playing the role of NaN for a
  field absent from a heterogeneous row.
* A pandas DataFrame is `DFrame`: a column-name list, an index-label list and a
  row list (pandas `append(…, ignore_index=True)` keeps new columns in
  encounter order, per pandas with `sort=False`).
* Python exceptions become the `FgError` sum; the spec's error taxonomy maps to
  it as documented on each constructor.
* Logged warnings are returned alongside results as a `List String`.
* The format readers live in the repository's `readers` module, which is not
  part of the analysed source; they are modelled from the spec as opaque-in-
  spirit functions from a payload path to a dataset body (see `DEFAULT_READERS`).
-/

/-- A pandas cell: `none` models NaN (a field absent from a row). -/
def Cell : Type := Option String
deriving DecidableEq, Repr

/-- A decoded metadata sidecar record: a Python dict of string-modelled scalars. -/
def Record : Type := List (String × String)
deriving DecidableEq, Repr

/-- First-match association-list lookup, the model of Python dict indexing. -/
def alookup {α : Type} : List (String × α) → String → Option α
  | [], _ => none
  | (k', v) :: rest, k => if k' = k then some v else alookup rest k

/-- Python dict assignment `d[k] = v`: replace in place if the key exists,
append at the end otherwise. -/
def aset {α : Type} : List (String × α) → String → α → List (String × α)
  | [], k, v => [(k, v)]
  | (k', v') :: rest, k, v =>
    if k' = k then (k, v) :: rest else (k', v') :: aset rest k v

/-- Python dict `d.pop(k, None)`: drop the first binding of `k`, if any. -/
def aerase {α : Type} : List (String × α) → String → List (String × α)
  | [], _ => []
  | (k', v') :: rest, k => if k' = k then rest else (k', v') :: aerase rest k

/-- Python dict merge as in a double-splat: keys of the first dict keep their
positions (values overridden by the second dict on collision), then the second
dict's new keys follow in its order. -/
def amerge {α : Type} (a b : List (String × α)) : List (String × α) :=
  (a.map fun kv => (kv.1, (alookup b kv.1).getD kv.2)) ++
    b.filter fun kv => (alookup a kv.1).isNone

/-- The key list of a registry, as produced by Python `list(d)`. -/
def akeys {α : Type} (a : List (String × α)) : List String :=
  a.map Prod.fst

/-- The errors the embedded code can raise.  The spec's taxonomy maps onto the
Python exceptions of src/fgread/read.py as follows:
`UnsupportedFormatError` is the `NotImplementedError` of the `"Other"` branch,
`UnconfiguredFormatError` the `ValueError` of the `"Not set"` branch,
`UnknownFormatError` the final `KeyError` (carrying `list(readers)`),
`NotFoundError` / `AmbiguousSelectionError` the `KeyError` of `select_ds_id`
(carrying its message), `ConfigurationError` the `AssertionError` of
`get_ds_paths`, and `assertionMultiple` the `assert len == 1` of `load_data`.
`valueErrorRemove` is the `ValueError` that Python `list.remove` raises when
its argument is absent, and `pandasError` stands for pandas' own
index/column-access failures. -/
inductive FgError : Type where
  | notImplementedOther (title fmt : Option String)
  | valueErrorNotSet (title : Option String)
  | keyErrorUnknown (fmt : Option String) (registered : List String)
  | keyErrorSelect (msg : String)
  | assertionNoData
  | assertionMultiple
  | valueErrorRemove (missing : String)
  | pandasError (what : String)
deriving DecidableEq, Repr

/-- A pandas DataFrame: column names, index labels and rows.  A row is an
association list; a column absent from a row is that row's NaN. -/
structure DFrame : Type where
  cols : List String
  index : List Nat
  rows : List Record
deriving DecidableEq, Repr

/-- The filesystem a run sees: whether the data root exists, the root's
immediate children as (name, is-directory) pairs, and the decoded
`dataset_info.json` sidecar of each directory, keyed by its full path.
Sidecar files are assumed present (their absence would be an I/O failure,
outside every claim). -/
structure FS : Type where
  rootExists : Bool
  root : String
  children : List (String × Bool)
  sidecars : List (String × Record)
deriving Repr

/-- The dataset body returned by a reader (the AnnData of the source): a row
count, a column count, per-row annotation columns and global annotations. -/
structure AnnData : Type where
  nObs : Nat
  nVar : Nat
  obs : List (String × List (Option String))
  uns : List (String × List (Option String × Record))
deriving DecidableEq, Repr

/-- A format reader: a function from a payload path to a dataset body. -/
def Reader : Type := String → AnnData

/-- Modelled from the spec: the format-specific readers live in the `readers`
module of the repository, which is not part of the analysed source; the spec
treats each as an external function mapping a file path to a dataset body.
Each default reader is modelled as producing a small body tagged with its
format label and the path it was invoked on, so distinct readers are
extensionally distinct and the invoked path is observable. -/
def defaultReaderFor (label : String) : Reader := fun p =>
  { nObs := 2
    nVar := 3
    obs := [("barcode", [some label, some p])]
    uns := [("source", [(some label, [("invoked_on", p)])])] }

/-- The default reader registry of src/fgread/read.py (`DEFAULT_READERS`),
with reader bodies modelled from the spec via `defaultReaderFor`. -/
def DEFAULT_READERS : List (String × Reader) :=
  [("Loom", defaultReaderFor "Loom"),
   ("Seurat Object", defaultReaderFor "Seurat Object"),
   ("AnnData", defaultReaderFor "AnnData"),
   ("10x (hdf5)", defaultReaderFor "10x (hdf5)"),
   ("10x (mtx)", defaultReaderFor "10x (mtx)"),
   ("tab-separated text", defaultReaderFor "tab-separated text"),
   ("comma-separated text", defaultReaderFor "comma-separated text")]

/-- The default data root of the source (`DATA_DIR = Path("/fastgenomics/data")`). -/
def DATA_DIR : String := "/fastgenomics/data"

/-- The warning logged by `get_ds_paths` when the data root does not exist. -/
def warnNoDatasets : String := "There are no datasets attached to this analysis."

/-- The warning logged by `ds_info` when both `pretty` and `output` are false. -/
def warnDoNothing : String :=
  "You have set \"pretty\" and \"output\" to false. Hence, this function will do/return nothing."

/-- The message of the `KeyError` raised by `select_ds_id`. -/
def selectErrMsg (n : Nat) : String :=
  "Your selection matches " ++ toString n ++ " datasets. Please make sure to select exactly one."

/-- Code-point comparison of character lists: the model of Python's
lexicographic path ordering used by `sorted(data_dir.iterdir())`. -/
def strLtB : List Char → List Char → Bool
  | [], [] => false
  | [], _ :: _ => true
  | _ :: _, [] => false
  | a :: as, b :: bs =>
    decide (a.toNat < b.toNat) || (decide (a.toNat = b.toNat) && strLtB as bs)

/-- Stable insertion of a child into a name-sorted list. -/
def insertByName (x : String × Bool) : List (String × Bool) → List (String × Bool)
  | [] => [x]
  | y :: ys =>
    if strLtB y.1.data x.1.data then y :: insertByName x ys else x :: y :: ys

/-- Insertion sort of directory entries by name: the model of
`sorted(data_dir.iterdir())`. -/
def sortByName (l : List (String × Bool)) : List (String × Bool) :=
  l.foldr insertByName []

/-- The directory-name pattern of the scanner,
`re.match(r"^dataset_\d{4}$", name)`: the literal prefix followed by exactly
four digits and the end of the name. -/
def isDatasetDirName (s : String) : Bool :=
  match s.data with
  | 'd' :: 'a' :: 't' :: 'a' :: 's' :: 'e' :: 't' :: '_' :: rest =>
    rest.length = 4 && rest.all Char.isDigit
  | _ => false

/-- The scanner `get_ds_paths` of src/fgread/read.py: a missing root logs a
warning and yields the empty list; an existing root lists its children sorted
by name, keeps directories matching the dataset pattern (joined onto the
root), and asserts the result nonempty. -/
def get_ds_paths (fs : FS) : Except FgError (List String) × List String :=
  if fs.rootExists then
    let paths :=
      ((sortByName fs.children).filter fun c => c.2 && isDatasetDirName c.1).map
        fun c => fs.root ++ "/" ++ c.1
    if paths.isEmpty then (.error .assertionNoData, []) else (.ok paths, [])
  else (.ok [], [warnNoDatasets])

/-- One aggregated metadata record: the directory's sidecar with `path` set to
the directory and `schemaVersion` dropped, as in the loop body of `ds_info`. -/
def mkRecord (fs : FS) (p : String) : Record :=
  aerase (aset ((alookup fs.sidecars p).getD []) "path" p) "schemaVersion"

/-- pandas `df.append(record, ignore_index=True)`: the row is appended, the
index becomes a fresh range, and the record's new keys extend the columns in
encounter order. -/
def dfAppend (df : DFrame) (rec : Record) : DFrame :=
  { cols := df.cols ++ (rec.map Prod.fst).filter fun k => !(df.cols.contains k)
    index := List.range (df.rows.length + 1)
    rows := df.rows ++ [rec] }

/-- The aggregation loop of `ds_info`: fold the discovered directories into one
DataFrame, starting from `pd.DataFrame()`. -/
def aggregate_ds (fs : FS) (paths : List String) : DFrame :=
  paths.foldl (fun df p => dfAppend df (mkRecord fs p)) ⟨[], [], []⟩

/-- The fixed priority column order of `ds_info` (`sort_order`). -/
def sort_order : List String :=
  ["title", "id", "format", "organism", "tissue", "numberOfCells",
   "numberOfGenes", "path", "file"]

/-- Python `[col_names.remove(name) for name in sort_order]`: remove the first
occurrence of each name in turn; `list.remove` raises `ValueError` on a name
that is not present. -/
def pyListRemoveAll (cols : List String) : List String → Except FgError (List String)
  | [] => .ok cols
  | x :: xs =>
    if cols.contains x then pyListRemoveAll (cols.erase x) xs
    else .error (.valueErrorRemove x)

/-- The column-reorder step of `ds_info` (source lines 80-95): the priority
columns that are present come first, followed by the remaining columns; the
removal pass fails with `ValueError` when a priority column is absent. -/
def sortColumns (df : DFrame) : Except FgError DFrame :=
  let colNamesSorted := sort_order.filter fun n => df.cols.contains n
  match pyListRemoveAll df.cols sort_order with
  | .error e => .error e
  | .ok rest => .ok { df with cols := colNamesSorted ++ rest }

/-- The dataset-table pipeline shared by `ds_info` and `load_data`:
scan, aggregate, reorder columns; warnings are threaded through. -/
def build_ds_df (fs : FS) : Except FgError DFrame × List String :=
  match get_ds_paths fs with
  | (.error e, w) => (.error e, w)
  | (.ok paths, w) => (sortColumns (aggregate_ds fs paths), w)

/-- The row matcher of `select_ds_id`: `(df["id"] == ds) | (df["title"] == ds)`
(a NaN cell compares unequal to every identifier). -/
def selMatch (ds : String) (r : Record) : Bool :=
  decide (alookup r "id" = some ds) || decide (alookup r "title" = some ds)

/-- The selector `select_ds_id` of src/fgread/read.py: keep the rows whose id
or title equals the identifier, reset the index; exactly one row is returned
(as a copy), any other count raises the selection `KeyError`. Accessing the
`id`/`title` columns of a frame that lacks them is a pandas failure. -/
def select_ds_id (ds : String) (df : DFrame) : Except FgError DFrame :=
  if df.cols.contains "id" && df.cols.contains "title" then
    let matched := df.rows.filter (selMatch ds)
    if matched.length = 1 then .ok ⟨df.cols, List.range matched.length, matched⟩
    else .error (.keyErrorSelect (selectErrMsg matched.length))
  else .error (.pandasError "column")

/-- Whether a cell holds an integer-convertible value, the model of
`astype("int32")` succeeding on it (NaN fails). -/
def cellIsInt : Option String → Bool
  | some s => s.toNat?.isSome
  | none => false

/-- The pretty display branch of `ds_info` for the no-identifier case:
its only failure point in the model is `astype({"numberOfCells": "int32",
"numberOfGenes": "int32"})`, which needs both columns present and every value
integer-convertible.  The HTML rendering itself is a side effect with a
swallowed import failure and is modelled as a no-op. -/
def prettyList (df : DFrame) : Except FgError Unit :=
  if df.cols.contains "numberOfCells" && df.cols.contains "numberOfGenes" then
    if df.rows.all fun r =>
        cellIsInt (alookup r "numberOfCells") && cellIsInt (alookup r "numberOfGenes")
    then .ok Unit.unit
    else .error (.pandasError "astype")
  else .error (.pandasError "astype-key")

/-- The public `ds_info` of src/fgread/read.py.  Returns the result (the
DataFrame when `output` is true, nothing otherwise) together with the logged
warnings.  With an identifier the pretty branch runs `select_ds_id` (and so can
raise); without one it runs the `astype` of the pretty table. -/
def ds_info (ds : Option String) (pretty output : Bool) (fs : FS) :
    Except FgError (Option DFrame) × List String :=
  let w0 : List String := if !pretty && !output then [warnDoNothing] else []
  match build_ds_df fs with
  | (.error e, w) => (.error e, w0 ++ w)
  | (.ok dsdf, w) =>
    match ds with
    | some d =>
      match (if pretty then (select_ds_id d dsdf).map fun _ => Unit.unit
             else .ok Unit.unit : Except FgError Unit) with
      | .error e => (.error e, w0 ++ w)
      | .ok _ =>
        (if output then (select_ds_id d dsdf).map some else .ok none, w0 ++ w)
    | none =>
      match (if pretty then prettyList dsdf else .ok Unit.unit :
             Except FgError Unit) with
      | .error e => (.error e, w0 ++ w)
      | .ok _ => (if output then .ok (some dsdf) else .ok none, w0 ++ w)

/-- Position of the first occurrence of a label in an index. -/
def idxPos : List Nat → Nat → Option Nat
  | [], _ => none
  | i :: rest, lbl =>
    if i = lbl then some 0 else (idxPos rest lbl).map (· + 1)

/-- pandas `df.loc[label]`: find the label in the index and return that row. -/
def dfLocRow (df : DFrame) (lbl : Nat) : Except FgError Record :=
  match idxPos df.index lbl with
  | some pos =>
    match df.rows.get? pos with
    | some r => .ok r
    | none => .error (.pandasError "row")
  | none => .error (.pandasError "label")

/-- pandas `df.loc[label, col]`: the cell of a labelled row in a column. -/
def dfLocCell (df : DFrame) (lbl : Nat) (c : String) : Except FgError (Option String) :=
  if df.cols.contains c then (dfLocRow df lbl).map fun r => alookup r c
  else .error (.pandasError "column")

/-- The columns `load_data` reads from the resolved row at index label 0. -/
def loadCols : List String := ["title", "id", "format", "path", "file"]

/-- The provenance enrichment of `load_data` (source lines 196-197):
`adata.uns["ds_metadata"] = {ds_id: row.to_dict()}` and
`adata.obs["fg_id"] = ds_id` (a scalar broadcast to the row count). -/
def enrichAnn (a : AnnData) (rec : Record) (dsid : Option String) : AnnData :=
  { a with
    uns := aset a.uns "ds_metadata" [(dsid, rec)]
    obs := aset a.obs "fg_id" (List.replicate a.nObs dsid) }

/-- The format dispatch of `load_data` on the resolved single-row frame:
read the five fields at index label 0, then branch — a format that is a key of
the effective registry invokes that reader on `path / file` and enriches the
result; otherwise the sentinels `"Other"` and `"Not set"` and the final
unknown-format case raise their respective errors (the unknown-format error
carries `list(readers)`). -/
def load_dispatch (df : DFrame) (readers : List (String × Reader)) :
    Except FgError AnnData :=
  if loadCols.all (fun c => df.cols.contains c) then
    match dfLocRow df 0 with
    | .error e => .error e
    | .ok rec =>
      let title := alookup rec "title"
      let fmt := alookup rec "format"
      match fmt.bind fun f => alookup readers f with
      | some r =>
        match alookup rec "path", alookup rec "file" with
        | some p, some fl => .ok (enrichAnn (r (p ++ "/" ++ fl)) rec (alookup rec "id"))
        | _, _ => .error (.pandasError "payload-path")
      | none =>
        if fmt = some "Other" then .error (.notImplementedOther title fmt)
        else if fmt = some "Not set" then .error (.valueErrorNotSet title)
        else .error (.keyErrorUnknown fmt (akeys readers))
  else .error (.pandasError "column")

/-- The resolution step of `load_data`: the dataset table of
`ds_info(data_dir, pretty=False)` narrowed by `select_ds_id` when an
identifier is given, or asserted to have exactly one row otherwise. -/
def resolve_ds (ds : Option String) (fs : FS) : Except FgError DFrame :=
  match (build_ds_df fs).1 with
  | .error e => .error e
  | .ok dsdf =>
    match ds with
    | some d => select_ds_id d dsdf
    | none =>
      if dsdf.rows.length = 1 then .ok dsdf else .error .assertionMultiple

/-- The public `load_data` of src/fgread/read.py: merge the caller's readers
over the defaults for this call, resolve the record, dispatch. -/
def load_data (ds : Option String) (fs : FS)
    (additional_readers : List (String × Reader)) : Except FgError AnnData :=
  match resolve_ds ds fs with
  | .error e => .error e
  | .ok df => load_dispatch df (amerge DEFAULT_READERS additional_readers)

/-- Prefix test on character lists, for stating what a message contains. -/
def listStartsWith : List Char → List Char → Bool
  | _, [] => true
  | [], _ :: _ => false
  | c :: cs, d :: ds => decide (c = d) && listStartsWith cs ds

/-- Substring test on character lists: whether `sub` occurs inside the list. -/
def listHasInfix (sub : List Char) : List Char → Bool
  | [] => sub.isEmpty
  | c :: cs => listStartsWith (c :: cs) sub || listHasInfix sub cs

/-! ### Concrete inputs used by witnesses, counterexamples and evaluations -/

/-- A sidecar record carrying every priority field (plus `schemaVersion`,
which the aggregator drops). -/
def fullRec (title id fmt file : String) : Record :=
  [("schemaVersion", "1"), ("title", title), ("id", id), ("format", fmt),
   ("organism", "Human"), ("tissue", "blood"), ("numberOfCells", "10"),
   ("numberOfGenes", "20"), ("file", file)]

/-- A filesystem with one validly named dataset directory under `/data`. -/
def oneDirFS (rec : Record) : FS :=
  ⟨true, "/data", [("dataset_0001", true)], [("/data/dataset_0001", rec)]⟩

/-- The aggregated row `oneDirFS (fullRec …)` produces. -/
def rowOf (title id fmt file : String) : Record :=
  [("title", title), ("id", id), ("format", fmt), ("organism", "Human"),
   ("tissue", "blood"), ("numberOfCells", "10"), ("numberOfGenes", "20"),
   ("file", file), ("path", "/data/dataset_0001")]

/-- The resolved single-row dataset table `oneDirFS (fullRec …)` produces. -/
def dfOf (title id fmt file : String) : DFrame :=
  ⟨sort_order, [0], [rowOf title id fmt file]⟩

/-- A dataset whose declared format is the sentinel `"Other"`. -/
def fsC1 : FS := oneDirFS (fullRec "Demo" "a1" "Other" "f.x")

/-- A caller-supplied reader, used to override registry entries. -/
def readerCustom : Reader := defaultReaderFor "custom"

/-- A dataset whose declared format is the unregistered string `"BadFormat"`. -/
def fsC1w : FS := oneDirFS (fullRec "Bad" "b2" "BadFormat" "g.x")

/-- A dataset in the registered `"comma-separated text"` format. -/
def fsC2 : FS := oneDirFS (fullRec "Demo" "a1" "comma-separated text" "data.csv")

/-- A one-row table in which no row has id or title `"zz"`. -/
def dfC3 : DFrame := ⟨["id", "title"], [0], [[("id", "a1"), ("title", "T")]]⟩

/-- A two-row table whose rows share the title `"T"`. -/
def dfC3w : DFrame :=
  ⟨["id", "title"], [0, 1],
   [[("id", "i1"), ("title", "T")], [("id", "i2"), ("title", "T")]]⟩

/-- A filesystem whose data root does not exist. -/
def fsNoRoot : FS := ⟨false, "/data", [], []⟩

/-- One valid dataset directory whose sidecar lacks the priority field
`organism` (and the others after it). -/
def fsC5 : FS :=
  oneDirFS [("id", "a1"), ("title", "Demo"), ("format", "Loom"), ("file", "f.loom")]

/-- An existing root with children, none of which matches `dataset_\d{4}`. -/
def fsC5b : FS := ⟨true, "/data", [("stuff", true), ("dataset_12", true)], []⟩

/-- Two valid dataset directories listed out of order, to observe the sort. -/
def fsC5c : FS :=
  ⟨true, "/data", [("dataset_0002", true), ("dataset_0001", true)],
   [("/data/dataset_0001", fullRec "One" "d1" "Loom" "f1.loom"),
    ("/data/dataset_0002", fullRec "Two" "d2" "Loom" "f2.loom")]⟩

/-- A sidecar with an extra `description` field placed before the priority
fields, to observe the column reorder. -/
def fsC6a : FS :=
  oneDirFS
    [("schemaVersion", "1"), ("description", "d"), ("title", "Six"), ("id", "c6"),
     ("format", "Loom"), ("organism", "Human"), ("tissue", "blood"),
     ("numberOfCells", "10"), ("numberOfGenes", "20"), ("file", "f.loom")]

/-- The aggregated row of `fsC6a`. -/
def rowC6a : Record :=
  [("description", "d"), ("title", "Six"), ("id", "c6"), ("format", "Loom"),
   ("organism", "Human"), ("tissue", "blood"), ("numberOfCells", "10"),
   ("numberOfGenes", "20"), ("file", "f.loom"), ("path", "/data/dataset_0001")]

/-- A sidecar missing the priority field `tissue`. -/
def fsC6b : FS :=
  oneDirFS
    [("title", "SixB"), ("id", "c6b"), ("format", "Loom"),
     ("organism", "Human"), ("file", "f.loom")]

/-- A dataset in the default-registered `"Loom"` format. -/
def fsC7 : FS := oneDirFS (fullRec "Seven" "a7" "Loom" "f.loom")

/-- A caller-supplied replacement for the `"Loom"` reader. -/
def readerC7 : Reader := defaultReaderFor "customLoom"

/-- A two-row table with distinct unique ids and titles. -/
def rowC8a : Record := [("id", "i1"), ("title", "T1")]

/-- Second row of the two-row table. -/
def rowC8b : Record := [("id", "i2"), ("title", "T2")]

/-- The two-row table with unique ids and titles. -/
def dfC8 : DFrame := ⟨["id", "title"], [0, 1], [rowC8a, rowC8b]⟩

/-- A two-row table whose second row is selected, to observe the index reset. -/
def dfC9 : DFrame := ⟨["id", "title"], [0, 1], [rowC8a, rowC8b]⟩

/-- The frame `select_ds_id "i2" dfC9` returns. -/
def dfC9out : DFrame := ⟨["id", "title"], [0], [rowC8b]⟩

/-- A healthy one-dataset filesystem for exercising the `output=False` path. -/
def fsC10 : FS := oneDirFS (fullRec "Ten" "c1" "Loom" "f.loom")

/-! ### Supporting lemmas -/

theorem alookup_aset_self {α : Type} (l : List (String × α)) (k : String) (v : α) :
    alookup (aset l k v) k = some v := by
  induction l with
  | nil => simp [aset, alookup]
  | cons kv rest ih =>
    obtain ⟨k', v'⟩ := kv
    by_cases h : k' = k
    · simp [aset, h, alookup]
    · simp [aset, h, alookup, ih]

theorem alookup_append {α : Type} (l1 l2 : List (String × α)) (k : String) :
    alookup (l1 ++ l2) k =
      match alookup l1 k with
      | some v => some v
      | none => alookup l2 k := by
  induction l1 with
  | nil => simp [alookup]
  | cons kv rest ih =>
    obtain ⟨k', v'⟩ := kv
    by_cases h : k' = k
    · simp [alookup, h]
    · simp [alookup, h, ih]

theorem alookup_map_val {α β : Type} (f : String → α → β) (a : List (String × α))
    (k : String) :
    alookup (a.map fun kv => (kv.1, f kv.1 kv.2)) k = (alookup a k).map (f k) := by
  induction a with
  | nil => simp [alookup]
  | cons kv rest ih =>
    obtain ⟨k', v'⟩ := kv
    by_cases h : k' = k
    · subst h; simp [alookup]
    · simp [alookup, h, ih]

theorem alookup_filter_key {α : Type} (p : String → Bool) (b : List (String × α))
    (k : String) :
    alookup (b.filter fun kv => p kv.1) k = if p k then alookup b k else none := by
  induction b with
  | nil => simp [alookup]
  | cons kv rest ih =>
    obtain ⟨k', v'⟩ := kv
    by_cases h : k' = k
    · subst h
      by_cases hp : p k'
      · simp [List.filter, hp, alookup, ih]
      · simp [List.filter, hp, alookup, ih]
    · by_cases hp : p k'
      · simp [List.filter, hp, alookup, h, ih]
      · simp [List.filter, hp, alookup, h, ih]

theorem alookup_amerge {α : Type} (a b : List (String × α)) (k : String) :
    alookup (amerge a b) k =
      match alookup a k with
      | some v => some ((alookup b k).getD v)
      | none => alookup b k := by
  rw [amerge, alookup_append]
  rw [alookup_map_val fun s v => (alookup b s).getD v]
  rw [alookup_filter_key fun s => (alookup a s).isNone]
  cases h : alookup a k <;> simp [h]

theorem amerge_nil {α : Type} (a : List (String × α)) : amerge a [] = a := by
  simp [amerge, alookup]

/-- Shared shape of a successful dispatch: if resolution produced the frame,
the row can be read at label 0, and the (merged) registry maps the row's format
to a reader, then `load_data` returns exactly that reader's body on the joined
payload path, enriched with the metadata record and dataset id. -/
theorem load_data_reader_eq (ds : Option String) (fs : FS)
    (extra : List (String × Reader)) (df : DFrame) (rec : Record) (r : Reader)
    (f p fl : String)
    (h1 : resolve_ds ds fs = .ok df)
    (h2 : (loadCols.all fun c => df.cols.contains c) = true)
    (h3 : dfLocRow df 0 = .ok rec)
    (h4 : alookup rec "format" = some f)
    (h5 : alookup (amerge DEFAULT_READERS extra) f = some r)
    (h6 : alookup rec "path" = some p)
    (h7 : alookup rec "file" = some fl) :
    load_data ds fs extra = .ok (enrichAnn (r (p ++ "/" ++ fl)) rec (alookup rec "id")) := by
  have h2' : ∀ x ∈ loadCols, x ∈ df.cols := by simpa using h2
  simp [load_data, h1, load_dispatch, h3, h4, h5, h6, h7]
  exact h2'

/-! ### Claim theorems -/

/-- C1 (counterexample): the claim says a resolved record with format
`"Other"` always makes `load` raise the unsupported-format error, but the
source checks `format in readers` first, so a caller-supplied reader
registered under the key `"Other"` is invoked instead and the call succeeds. -/
theorem load_other_overridden_counterexample :
    load_data (some "a1") fsC1 [("Other", readerCustom)] =
      .ok (enrichAnn (readerCustom "/data/dataset_0001/f.x")
        (rowOf "Demo" "a1" "Other" "f.x") (some "a1")) := rfl

/-- C1 (amended): for every record resolved by `load` whose format is NOT a
key of the effective reader registry, format `"Other"` raises the
unsupported-format error, `"Not set"` the unconfigured-format error, and any
other string the unknown-format error carrying the list of currently
registered format labels. -/
theorem load_sentinel_formats_amended (ds : Option String) (fs : FS)
    (extra : List (String × Reader)) (df : DFrame) (rec : Record) (f : String)
    (h1 : resolve_ds ds fs = .ok df)
    (h2 : (loadCols.all fun c => df.cols.contains c) = true)
    (h3 : dfLocRow df 0 = .ok rec)
    (h4 : alookup rec "format" = some f)
    (h5 : alookup (amerge DEFAULT_READERS extra) f = none) :
    (f = "Other" →
      load_data ds fs extra = .error (.notImplementedOther (alookup rec "title") (some f)))
    ∧ (f = "Not set" →
      load_data ds fs extra = .error (.valueErrorNotSet (alookup rec "title")))
    ∧ (f ≠ "Other" → f ≠ "Not set" →
      load_data ds fs extra =
        .error (.keyErrorUnknown (some f) (akeys (amerge DEFAULT_READERS extra)))) := by
  have h2' : ∀ x ∈ loadCols, x ∈ df.cols := by simpa using h2
  refine ⟨?_, ?_, ?_⟩
  · intro hf
    subst hf
    simp [load_data, h1, load_dispatch, h3, h4, h5]
    exact h2'
  · intro hf
    subst hf
    simp [load_data, h1, load_dispatch, h3, h4, h5]
    exact h2'
  · intro hO hN
    simp [load_data, h1, load_dispatch, h3, h4, h5, hO, hN]
    exact h2'

/-- C1 (witness): a concrete dataset declaring the unregistered format
`"BadFormat"`, loaded with no extra readers, raises the unknown-format error
listing the registered labels. -/
theorem load_sentinel_formats_amended_witness :
    resolve_ds (some "b2") fsC1w = .ok (dfOf "Bad" "b2" "BadFormat" "g.x")
    ∧ alookup (amerge DEFAULT_READERS ([] : List (String × Reader))) "BadFormat" = none
    ∧ load_data (some "b2") fsC1w [] =
        .error (.keyErrorUnknown (some "BadFormat")
          (akeys (amerge DEFAULT_READERS ([] : List (String × Reader))))) :=
  ⟨rfl, rfl,
    (load_sentinel_formats_amended (some "b2") fsC1w []
      (dfOf "Bad" "b2" "BadFormat" "g.x") (rowOf "Bad" "b2" "BadFormat" "g.x")
      "BadFormat" rfl rfl rfl rfl rfl).2.2 (by decide) (by decide)⟩

/-- C2: for every record resolved by `load` whose format is a key of the
effective registry, `load` invokes exactly that reader on the record's `path`
joined with its `file`; the result's global annotations hold the full metadata
record keyed by the dataset id, and the per-row column `fg_id` has length equal
to the body's row count with every value equal to the dataset id. -/
theorem load_registered_format_enriches (ds : Option String) (fs : FS)
    (extra : List (String × Reader)) (df : DFrame) (rec : Record) (r : Reader)
    (f p fl i : String)
    (h1 : resolve_ds ds fs = .ok df)
    (h2 : (loadCols.all fun c => df.cols.contains c) = true)
    (h3 : dfLocRow df 0 = .ok rec)
    (h4 : alookup rec "format" = some f)
    (h5 : alookup (amerge DEFAULT_READERS extra) f = some r)
    (h6 : alookup rec "path" = some p)
    (h7 : alookup rec "file" = some fl)
    (h8 : alookup rec "id" = some i) :
    load_data ds fs extra = .ok (enrichAnn (r (p ++ "/" ++ fl)) rec (some i))
    ∧ alookup (enrichAnn (r (p ++ "/" ++ fl)) rec (some i)).uns "ds_metadata" =
        some [(some i, rec)]
    ∧ ∃ col, alookup (enrichAnn (r (p ++ "/" ++ fl)) rec (some i)).obs "fg_id" = some col
        ∧ col.length = (enrichAnn (r (p ++ "/" ++ fl)) rec (some i)).nObs
        ∧ ∀ c ∈ col, c = some i := by
  refine ⟨?_, ?_, ?_⟩
  · rw [← h8]
    exact load_data_reader_eq ds fs extra df rec r f p fl h1 h2 h3 h4 h5 h6 h7
  · simp [enrichAnn, alookup_aset_self]
  · refine ⟨List.replicate (r (p ++ "/" ++ fl)).nObs (some i), ?_, ?_, ?_⟩
    · simp [enrichAnn, alookup_aset_self]
    · simp [enrichAnn]
    · intro c hc
      exact List.eq_of_mem_replicate hc

/-- C2 (witness): the spec's own scenario — a CSV dataset with id `a1` is
loaded by the `"comma-separated text"` reader on
`/data/dataset_0001/data.csv`. -/
theorem load_registered_format_enriches_witness :
    resolve_ds (some "a1") fsC2 = .ok (dfOf "Demo" "a1" "comma-separated text" "data.csv")
    ∧ load_data (some "a1") fsC2 [] =
        .ok (enrichAnn (defaultReaderFor "comma-separated text" "/data/dataset_0001/data.csv")
          (rowOf "Demo" "a1" "comma-separated text" "data.csv") (some "a1")) :=
  ⟨rfl,
    (load_registered_format_enriches (some "a1") fsC2 []
      (dfOf "Demo" "a1" "comma-separated text" "data.csv")
      (rowOf "Demo" "a1" "comma-separated text" "data.csv")
      (defaultReaderFor "comma-separated text") "comma-separated text"
      "/data/dataset_0001" "data.csv" "a1" rfl rfl rfl rfl rfl rfl rfl rfl).1⟩

/-- C7: an `extra_readers` entry whose key collides with a default format
label wins for that call — the merged registry maps the label to the caller's
reader and `load` invokes it — while the defaults are untouched: merging the
empty override yields `DEFAULT_READERS` itself, and a subsequent call without
extra readers invokes the original default reader. -/
theorem extra_readers_override_per_call (k : String) (rd d0 : Reader)
    (ds : Option String) (fs : FS) (df : DFrame) (rec : Record) (p fl : String)
    (hk : alookup DEFAULT_READERS k = some d0)
    (h1 : resolve_ds ds fs = .ok df)
    (h2 : (loadCols.all fun c => df.cols.contains c) = true)
    (h3 : dfLocRow df 0 = .ok rec)
    (h4 : alookup rec "format" = some k)
    (h6 : alookup rec "path" = some p)
    (h7 : alookup rec "file" = some fl) :
    alookup (amerge DEFAULT_READERS [(k, rd)]) k = some rd
    ∧ load_data ds fs [(k, rd)] =
        .ok (enrichAnn (rd (p ++ "/" ++ fl)) rec (alookup rec "id"))
    ∧ amerge DEFAULT_READERS [] = DEFAULT_READERS
    ∧ load_data ds fs [] =
        .ok (enrichAnn (d0 (p ++ "/" ++ fl)) rec (alookup rec "id")) := by
  have hov : alookup (amerge DEFAULT_READERS [(k, rd)]) k = some rd := by
    rw [alookup_amerge, hk]
    simp [alookup]
  have hdef : alookup (amerge DEFAULT_READERS []) k = some d0 := by
    rw [amerge_nil]
    exact hk
  exact ⟨hov,
    load_data_reader_eq ds fs [(k, rd)] df rec rd k p fl h1 h2 h3 h4 hov h6 h7,
    amerge_nil DEFAULT_READERS,
    load_data_reader_eq ds fs [] df rec d0 k p fl h1 h2 h3 h4 hdef h6 h7⟩

/-- C7 (witness): overriding the default `"Loom"` reader for one call invokes
the caller's reader; the next call without extras uses the default again. -/
theorem extra_readers_override_per_call_witness :
    alookup DEFAULT_READERS "Loom" = some (defaultReaderFor "Loom")
    ∧ alookup (amerge DEFAULT_READERS [("Loom", readerC7)]) "Loom" = some readerC7
    ∧ load_data (some "a7") fsC7 [("Loom", readerC7)] =
        .ok (enrichAnn (readerC7 "/data/dataset_0001/f.loom")
          (rowOf "Seven" "a7" "Loom" "f.loom") (some "a7"))
    ∧ load_data (some "a7") fsC7 [] =
        .ok (enrichAnn (defaultReaderFor "Loom" "/data/dataset_0001/f.loom")
          (rowOf "Seven" "a7" "Loom" "f.loom") (some "a7")) := by
  have h := extra_readers_override_per_call "Loom" readerC7 (defaultReaderFor "Loom")
    (some "a7") fsC7 (dfOf "Seven" "a7" "Loom" "f.loom")
    (rowOf "Seven" "a7" "Loom" "f.loom") "/data/dataset_0001" "f.loom"
    rfl rfl rfl rfl rfl rfl rfl
  exact ⟨rfl, h.1, h.2.1, h.2.2.2⟩

/-- C3 (counterexample): the claim says zero matches raise an error naming the
identifier, but the raised message only reports the match count — selecting
`"zz"` from a table it does not appear in raises the selection error whose
message does not contain the identifier. -/
theorem select_notfound_message_counterexample :
    select_ds_id "zz" dfC3 = .error (.keyErrorSelect (selectErrMsg 0))
    ∧ listHasInfix "zz".data (selectErrMsg 0).data = false := ⟨rfl, rfl⟩

/-- C3 (amended): for every table holding `id` and `title` columns, an
identifier matching zero rows raises the selection error reporting zero
matches (its message does not include the identifier), and an identifier
matching two or more rows raises the selection error reporting the number of
matches. -/
theorem select_mismatch_errors_amended (ds : String) (df : DFrame) (n : Nat)
    (hc : (df.cols.contains "id" && df.cols.contains "title") = true)
    (hn : (df.rows.filter (selMatch ds)).length = n) :
    (n = 0 → select_ds_id ds df = .error (.keyErrorSelect (selectErrMsg 0)))
    ∧ (2 ≤ n → select_ds_id ds df = .error (.keyErrorSelect (selectErrMsg n))) := by
  have hc' : "id" ∈ df.cols ∧ "title" ∈ df.cols := by simpa using hc
  constructor
  · intro h0
    subst h0
    simp [select_ds_id, hc'.1, hc'.2, hn]
  · intro h2
    have hne : n ≠ 1 := by omega
    simp [select_ds_id, hc'.1, hc'.2, hn, hne]

/-- C3 (witness): the duplicated title `"T"` matches two rows, raising the
selection error reporting 2 matches. -/
theorem select_mismatch_errors_amended_witness :
    (dfC3w.rows.filter (selMatch "T")).length = 2
    ∧ select_ds_id "T" dfC3w = .error (.keyErrorSelect (selectErrMsg 2)) :=
  ⟨rfl, (select_mismatch_errors_amended "T" dfC3w 2 rfl rfl).2 (by decide)⟩

/-- C8: when a row's id and its title each match exactly that one row of the
table, selecting by the id and selecting by the title return the same
single-row frame, holding (a value copy of) that row. -/
theorem select_by_id_eq_by_title (df : DFrame) (r : Record) (i t : String)
    (hc : (df.cols.contains "id" && df.cols.contains "title") = true)
    (_hri : alookup r "id" = some i)
    (_hrt : alookup r "title" = some t)
    (hui : df.rows.filter (selMatch i) = [r])
    (hut : df.rows.filter (selMatch t) = [r]) :
    select_ds_id i df = .ok ⟨df.cols, [0], [r]⟩
    ∧ select_ds_id t df = select_ds_id i df := by
  have hc' : "id" ∈ df.cols ∧ "title" ∈ df.cols := by simpa using hc
  have hrange : List.range 1 = [0] := rfl
  have e1 : select_ds_id i df = .ok ⟨df.cols, [0], [r]⟩ := by
    simp [select_ds_id, hc'.1, hc'.2, hui, hrange]
  have e2 : select_ds_id t df = .ok ⟨df.cols, [0], [r]⟩ := by
    simp [select_ds_id, hc'.1, hc'.2, hut, hrange]
  exact ⟨e1, by rw [e1, e2]⟩

/-- C8 (witness): in a table with unique ids and titles, selecting the first
row by `"i1"` and by `"T1"` agree. -/
theorem select_by_id_eq_by_title_witness :
    dfC8.rows.filter (selMatch "i1") = [rowC8a]
    ∧ select_ds_id "i1" dfC8 = .ok ⟨dfC8.cols, [0], [rowC8a]⟩
    ∧ select_ds_id "T1" dfC8 = select_ds_id "i1" dfC8 := by
  have h := select_by_id_eq_by_title dfC8 rowC8a "i1" "T1" rfl rfl rfl rfl rfl
  exact ⟨rfl, h.1, h.2⟩

/-- C9: a successful selection returns a frame whose index is reset to `[0]`,
so its single row is addressable at index label 0 — every column `load_data`
reads via `loc[0, c]` yields that row's cell. -/
theorem select_resets_index (ds : String) (df out : DFrame)
    (h : select_ds_id ds df = .ok out) :
    out.index = [0]
    ∧ ∃ r, out.rows = [r] ∧ dfLocRow out 0 = .ok r
        ∧ ∀ c, out.cols.contains c = true → dfLocCell out 0 c = .ok (alookup r c) := by
  unfold select_ds_id at h
  by_cases hc : (df.cols.contains "id" && df.cols.contains "title") = true
  · rw [if_pos hc] at h
    by_cases hl : (df.rows.filter (selMatch ds)).length = 1
    · rw [if_pos hl] at h
      obtain ⟨r, hr⟩ := List.length_eq_one.mp hl
      rw [hr] at h
      have hrange : List.range ([r] : List Record).length = [0] := rfl
      rw [hrange] at h
      cases h
      refine ⟨rfl, r, rfl, rfl, ?_⟩
      intro c hcc
      have hcm : c ∈ df.cols := by simpa using hcc
      simp [dfLocCell, hcm, dfLocRow, idxPos, Except.map]
    · rw [if_neg hl] at h
      exact absurd h (by simp)
  · rw [if_neg hc] at h
    exact absurd h (by simp)

/-- C9 (witness): selecting the second row of a two-row table yields a frame
re-indexed at 0 whose single row is that row. -/
theorem select_resets_index_witness :
    select_ds_id "i2" dfC9 = .ok dfC9out ∧ dfC9out.index = [0] :=
  ⟨rfl, (select_resets_index "i2" dfC9 dfC9out rfl).1⟩

/-- C4 (code bug): with a non-existent data root, `get_ds_paths` logs its
warning and deliberately returns the empty list, but `ds_info` then crashes in
the column-reorder step — `col_names.remove("title")` on the empty column list
raises `ValueError` — instead of returning an empty table. -/
theorem ds_info_missing_root_raises :
    ds_info none true true fsNoRoot =
      (.error (.valueErrorRemove "title"), [warnNoDatasets]) := rfl

/-- C5 (code bug): an existing root whose children leave nothing after the
`dataset_\d{4}` filter makes the scan fail with the no-data assertion, and the
scan returns matching directories sorted by name (first two conjuncts, which
hold); but for a valid directory whose sidecar lacks the priority field
`organism`, `list_datasets` raises `ValueError` from `list.remove` instead of
returning its one row (third conjunct, refuting the claim's row-per-directory
part). -/
theorem scan_and_rows_code_bug_eval :
    get_ds_paths fsC5b = (.error .assertionNoData, [])
    ∧ get_ds_paths fsC5c = (.ok ["/data/dataset_0001", "/data/dataset_0002"], [])
    ∧ ds_info none false true fsC5 = (.error (.valueErrorRemove "organism"), []) :=
  ⟨rfl, rfl, rfl⟩

/-- C6 (code bug): when every priority column occurs, the table's columns are
the priority list followed by the remaining columns in encounter order (first
conjunct: `description`, first in the sidecar, ends up last); but a record
missing the priority field `tissue` makes the reorder raise `ValueError` from
`list.remove` instead of skipping the absent column (second conjunct). -/
theorem column_order_code_bug_eval :
    ds_info none false true fsC6a =
      (.ok (some ⟨sort_order ++ ["description"], [0], [rowC6a]⟩), [])
    ∧ ds_info none false true fsC6b = (.error (.valueErrorRemove "tissue"), []) :=
  ⟨rfl, rfl⟩

/-- C10: whenever `ds_info` with `output = false` completes normally, it
returns nothing, regardless of `pretty`; and when `pretty` is also false the
emitted warnings include the do-nothing warning. -/
theorem ds_info_output_false_returns_none (ds : Option String) (pretty : Bool)
    (fs : FS) (x : Option DFrame) (w : List String)
    (h : ds_info ds pretty false fs = (.ok x, w)) :
    x = none ∧ (pretty = false → warnDoNothing ∈ w) := by
  unfold ds_info at h
  rcases hb : build_ds_df fs with ⟨res, wb⟩
  rw [hb] at h
  cases res with
  | error e => simp at h
  | ok dsdf =>
    cases ds with
    | some d =>
      cases pretty with
      | false =>
        simp at h
        exact ⟨h.1.symm, fun _ => by simp [← h.2, warnDoNothing]⟩
      | true =>
        cases hsel : select_ds_id d dsdf with
        | error e => simp [hsel, Except.map] at h
        | ok u =>
          simp [hsel, Except.map] at h
          exact ⟨h.1.symm, fun hpf => by cases hpf⟩
    | none =>
      cases pretty with
      | false =>
        simp at h
        exact ⟨h.1.symm, fun _ => by simp [← h.2, warnDoNothing]⟩
      | true =>
        cases hpl : prettyList dsdf with
        | error e => simp [hpl] at h
        | ok u =>
          simp [hpl] at h
          exact ⟨h.1.symm, fun hpf => by cases hpf⟩

/-- C10 (witness): a healthy one-dataset root with `pretty = false` and
`output = false` returns nothing and logs the do-nothing warning. -/
theorem ds_info_output_false_returns_none_witness :
    ds_info none false false fsC10 = (.ok none, [warnDoNothing])
    ∧ ((none : Option DFrame) = none
        ∧ (false = false → warnDoNothing ∈ [warnDoNothing])) :=
  ⟨rfl, ds_info_output_false_returns_none none false fsC10 none [warnDoNothing] rfl⟩
